import Mathlib

/-!
Shallow embedding of `src/simple_head_tracker.js` (class `SimpleHeadTracker`),
the head-pose-to-command classifier of the gazelle-runner repository.

JS numbers are modelled as rationals (`ℚ`); the arithmetic the claims touch
(sums, division by a count, ±5 offsets, comparisons) is exact.  DOM handles,
the camera, and console/UI writes carry no classifier state and are omitted.
The landmark geometry of `calculateHeadPose` (which uses `atan2`) is not the
subject of any claim; a detected face in a frame is represented directly by
the `PoseSample` that `calculateHeadPose` produces from its landmarks, and an
empty `multiFaceLandmarks` list represents a frame with no detected face.
-/

/-- Raw / smoothed command labels: the JS strings 'up', 'down', 'neutral'. -/
inductive Cmd where
  | up
  | down
  | neutral
deriving DecidableEq

/-- The object returned by `calculateHeadPose`:
`{ pitch, eyeToNose, chinAngle, confidence }`. -/
structure PoseSample where
  pitch : ℚ
  eyeToNose : ℚ
  chinAngle : ℚ
  confidence : ℚ
deriving DecidableEq

/-- The argument of `processResults`: MediaPipe results, with each detected
face already reduced to its `PoseSample` (see the header comment). -/
structure FaceResults where
  multiFaceLandmarks : List PoseSample

/-- The mutable state of a `SimpleHeadTracker` instance (constructor fields
that carry classifier state; DOM/video/camera handles omitted). -/
structure Tracker where
  isInitialized : Bool
  currentHeadPose : Cmd
  poseHistory : List Cmd
  maxHistoryLength : Nat
  isCalibrated : Bool
  neutralPosition : Option ℚ
  calibrationSamples : List PoseSample
  calibrationFrames : Nat
  upThreshold : ℚ
  downThreshold : ℚ
  minConfidenceFrames : Nat

/-- The field values set by the `SimpleHeadTracker` constructor. -/
def initialTracker : Tracker :=
  { isInitialized := false
    currentHeadPose := Cmd.neutral
    poseHistory := []
    maxHistoryLength := 3
    isCalibrated := false
    neutralPosition := none
    calibrationSamples := []
    calibrationFrames := 60
    upThreshold := -5
    downThreshold := 5
    minConfidenceFrames := 2 }

/-- `setDefaultCalibration()`: fixed fallback calibration. -/
def setDefaultCalibration (t : Tracker) : Tracker :=
  { t with
    neutralPosition := some 0
    upThreshold := -5
    downThreshold := 5
    isCalibrated := true }

/-- The average pitch computed in `finishCalibration`:
`calibrationSamples.reduce((sum, s) => sum + s.pitch, 0) / length`. -/
def avgPitch (samples : List PoseSample) : ℚ :=
  (samples.map PoseSample.pitch).sum / samples.length

/-- `finishCalibration()`: with more than 10 samples, set the neutral pitch to
the sample average and thresholds to average ∓ 5; otherwise fall back to the
default calibration.  Either way the tracker ends calibrated. -/
def finishCalibration (t : Tracker) : Tracker :=
  if 10 < t.calibrationSamples.length then
    let a := avgPitch t.calibrationSamples
    { t with
      neutralPosition := some a
      upThreshold := a - 5
      downThreshold := a + 5
      isCalibrated := true }
  else
    setDefaultCalibration t

/-- `updateCalibrationUI(progress)`: the text update is UI-only; the state
effect is that `finishCalibration` runs once `progress >= calibrationFrames`. -/
def updateCalibrationUI (t : Tracker) (progress : Nat) : Tracker :=
  if t.calibrationFrames ≤ progress then finishCalibration t else t

/-- `determineHeadPose(headData)`: raw per-frame classification.
Pitch below `upThreshold` (physical tilt up) maps to the game command
`down` (duck); pitch above `downThreshold` (physical tilt down) maps to
`up` (jump); otherwise `neutral`. -/
def determineHeadPose (t : Tracker) (headData : PoseSample) : Cmd :=
  if t.isCalibrated = false then Cmd.neutral
  else if headData.pitch < t.upThreshold then Cmd.down
  else if t.downThreshold < headData.pitch then Cmd.up
  else Cmd.neutral

/-- Total vote weight a label receives in `getSmoothedPose`'s `counts`
object: each history entry contributes 1, except the entry at the last
index, which contributes 2. -/
def voteWeight (history : List Cmd) (c : Cmd) : Nat :=
  history.count c + (if history.getLast? = some c then 1 else 0)

/-- Key order of the JS `counts` object: insertion order, i.e. order of first
occurrence in the history. -/
def keyOrder (history : List Cmd) : List Cmd :=
  history.foldl (fun ks c => if c ∈ ks then ks else ks ++ [c]) []

/-- `Object.entries(counts)`: label/weight pairs in key insertion order. -/
def voteEntries (history : List Cmd) : List (Cmd × Nat) :=
  (keyOrder history).map (fun c => (c, voteWeight history c))

/-- One step of a stable sort by weight descending: insert `x` before the
first strictly lighter entry, so an entry inserted later stays after equal
weights, as in JS `Array.prototype.sort` (stable). -/
def insertDesc (x : Cmd × Nat) : List (Cmd × Nat) → List (Cmd × Nat)
  | [] => [x]
  | y :: ys => if y.2 < x.2 then x :: y :: ys else y :: insertDesc x ys

/-- `entries.sort((a, b) => b[1] - a[1])`: stable descending sort. -/
def sortDesc (l : List (Cmd × Nat)) : List (Cmd × Nat) :=
  l.foldl (fun acc x => insertDesc x acc) []

/-- `getSmoothedPose()`: recency-weighted vote over the pose history; the top
entry is emitted only if it is non-neutral and its weight reaches
`minConfidenceFrames`, else `neutral`.  (The inner `[] => neutral` arm is
unreachable: a nonempty history yields nonempty entries.) -/
def getSmoothedPose (t : Tracker) : Cmd :=
  if t.poseHistory.length = 0 then Cmd.neutral
  else
    match sortDesc (voteEntries t.poseHistory) with
    | [] => Cmd.neutral
    | top :: _ =>
      if top.1 ≠ Cmd.neutral ∧ t.minConfidenceFrames ≤ top.2 then top.1
      else Cmd.neutral

/-- `updateHeadPose(newPose, headData)`: push the raw command, evict the
oldest entry beyond `maxHistoryLength`, and recompute the smoothed pose.
(`updateUI` only writes to the DOM.) -/
def updateHeadPose (t : Tracker) (newPose : Cmd) : Tracker :=
  let pushed := t.poseHistory ++ [newPose]
  let hist := if t.maxHistoryLength < pushed.length then pushed.tail else pushed
  let t' : Tracker := { t with poseHistory := hist }
  { t' with currentHeadPose := getSmoothedPose t' }

/-- `processResults(results)`: skip frames with no detected face; while
uncalibrated, collect calibration samples (up to `calibrationFrames`) and run
the calibration-progress check; once calibrated, classify and smooth. -/
def processResults (t : Tracker) (results : FaceResults) : Tracker :=
  match results.multiFaceLandmarks with
  | [] => t
  | headData :: _ =>
    if t.isCalibrated = false then
      if t.calibrationSamples.length < t.calibrationFrames then
        let t' : Tracker :=
          { t with calibrationSamples := t.calibrationSamples ++ [headData] }
        updateCalibrationUI t' t'.calibrationSamples.length
      else t
    else
      updateHeadPose t (determineHeadPose t headData)

/-- The `{up, down, left, right}` object returned by `getCurrentInput`. -/
structure GameInput where
  up : Bool
  down : Bool
  left : Bool
  right : Bool
deriving DecidableEq

/-- `getCurrentInput()`: `null` unless initialized, calibrated and currently
non-neutral; otherwise the flag object derived from the smoothed pose. -/
def getCurrentInput (t : Tracker) : Option GameInput :=
  if t.isInitialized = false ∨ t.isCalibrated = false then none
  else if t.currentHeadPose ≠ Cmd.neutral then
    some
      { up := t.currentHeadPose = Cmd.up
        down := t.currentHeadPose = Cmd.down
        left := false
        right := false }
  else none

/-- `recalibrate()`: drop the calibration, the samples, the pose history and
the current command (the delayed `startCalibration` clears the already-empty
sample list again; the state effect is as below). -/
def recalibrate (t : Tracker) : Tracker :=
  { t with
    isCalibrated := false
    calibrationSamples := []
    currentHeadPose := Cmd.neutral
    poseHistory := [] }

/-! ### Concrete states used by witnesses -/

/-- An initialized, calibrated tracker with the default thresholds. -/
def calTracker : Tracker :=
  { initialTracker with isInitialized := true, isCalibrated := true }

/-- A pose sample with the given pitch (auxiliary fields as produced with a
zero chin vector and the source's constant confidence). -/
def mkSample (p : ℚ) : PoseSample :=
  { pitch := p, eyeToNose := 0, chinAngle := 0, confidence := 9 / 10 }

/-! ### C1: raw classification polarity and exclusive boundaries -/

/-- C1: with a completed calibration whose thresholds satisfy
`upThreshold < downThreshold`, `determineHeadPose` returns `down` below the
up-threshold (tilt-up means duck), `up` above the down-threshold, `neutral`
in between, and `neutral` exactly at either threshold (both boundaries
exclusive). -/
theorem determineHeadPose_polarity (t : Tracker) (s : PoseSample)
    (hcal : t.isCalibrated = true) (hlt : t.upThreshold < t.downThreshold) :
    (s.pitch < t.upThreshold → determineHeadPose t s = Cmd.down) ∧
    (t.downThreshold < s.pitch → determineHeadPose t s = Cmd.up) ∧
    (t.upThreshold ≤ s.pitch → s.pitch ≤ t.downThreshold →
      determineHeadPose t s = Cmd.neutral) ∧
    (s.pitch = t.upThreshold ∨ s.pitch = t.downThreshold →
      determineHeadPose t s = Cmd.neutral) := by
  unfold determineHeadPose
  rw [hcal]
  refine ⟨fun h => ?_, fun h => ?_, fun h1 h2 => ?_, fun h => ?_⟩
  · simp [h]
  · have : ¬ s.pitch < t.upThreshold := by linarith
    simp [this, h]
  · have h3 : ¬ s.pitch < t.upThreshold := by linarith
    have h4 : ¬ t.downThreshold < s.pitch := by linarith
    simp [h3, h4]
  · rcases h with h | h
    · have h3 : ¬ s.pitch < t.upThreshold := by simp [h]
      have h4 : ¬ t.downThreshold < s.pitch := by rw [h]; linarith
      simp [h3, h4]
    · have h3 : ¬ s.pitch < t.upThreshold := by rw [h]; linarith
      have h4 : ¬ t.downThreshold < s.pitch := by simp [h]
      simp [h3, h4]

/-- Witness for C1 at the default calibrated thresholds (−5, 5): pitch −6
classifies as `down`, and pitch exactly −5 (the up-threshold) as `neutral`. -/
theorem determineHeadPose_polarity_witness :
    determineHeadPose calTracker (mkSample (-6)) = Cmd.down ∧
    determineHeadPose calTracker (mkSample (-5)) = Cmd.neutral := by
  have h := determineHeadPose_polarity calTracker (mkSample (-6)) rfl (by norm_num [calTracker, initialTracker])
  have h' := determineHeadPose_polarity calTracker (mkSample (-5)) rfl (by norm_num [calTracker, initialTracker])
  exact ⟨h.1 (by norm_num [mkSample, calTracker, initialTracker]),
    h'.2.2.2 (Or.inl (by norm_num [mkSample, calTracker, initialTracker]))⟩

/-! ### C2: personalized calibration from at least 11 samples -/

/-- C2: when at least 11 samples were collected and their pitches average to
`p`, `finishCalibration` records neutral pitch `p`, sets
`upThreshold = p - 5` and `downThreshold = p + 5` exactly, and marks the
calibration complete. -/
theorem finishCalibration_personalized (t : Tracker) (p : ℚ)
    (hlen : 11 ≤ t.calibrationSamples.length)
    (havg : avgPitch t.calibrationSamples = p) :
    (finishCalibration t).neutralPosition = some p ∧
    (finishCalibration t).upThreshold = p - 5 ∧
    (finishCalibration t).downThreshold = p + 5 ∧
    (finishCalibration t).isCalibrated = true := by
  have h : 10 < t.calibrationSamples.length := by omega
  simp [finishCalibration, h, havg]

/-- Witness for C2: eleven samples of pitch 7 average to 7 and produce
thresholds 2 and 12. -/
theorem finishCalibration_personalized_witness :
    (finishCalibration
      { initialTracker with calibrationSamples := List.replicate 11 (mkSample 7) }).neutralPosition = some 7 ∧
    (finishCalibration
      { initialTracker with calibrationSamples := List.replicate 11 (mkSample 7) }).upThreshold = 2 ∧
    (finishCalibration
      { initialTracker with calibrationSamples := List.replicate 11 (mkSample 7) }).downThreshold = 12 ∧
    (finishCalibration
      { initialTracker with calibrationSamples := List.replicate 11 (mkSample 7) }).isCalibrated = true := by
  have h := finishCalibration_personalized
    { initialTracker with calibrationSamples := List.replicate 11 (mkSample 7) } 7
    (by simp) (by norm_num [avgPitch, mkSample, List.replicate])
  refine ⟨h.1, ?_, ?_, h.2.2.2⟩
  · rw [h.2.1]; norm_num
  · rw [h.2.2.1]; norm_num

/-! ### C5: default-calibration fallback on at most 10 samples -/

/-- C5: with at most 10 collected samples, `finishCalibration` takes the
default-calibration fallback — neutral pitch 0, thresholds −5 and +5 — and
still marks the tracker calibrated.  (The embedding is a total function, so
the path provably produces a state rather than throwing.) -/
theorem finishCalibration_fallback (t : Tracker)
    (hlen : t.calibrationSamples.length ≤ 10) :
    (finishCalibration t).neutralPosition = some 0 ∧
    (finishCalibration t).upThreshold = -5 ∧
    (finishCalibration t).downThreshold = 5 ∧
    (finishCalibration t).isCalibrated = true := by
  have h : ¬ 10 < t.calibrationSamples.length := by omega
  simp [finishCalibration, h, setDefaultCalibration]

/-- Witness for C5: five samples trigger the default fallback. -/
theorem finishCalibration_fallback_witness :
    (finishCalibration
      { initialTracker with
        calibrationSamples := List.replicate 5 (mkSample 7)
        upThreshold := 100 }).neutralPosition = some 0 ∧
    (finishCalibration
      { initialTracker with
        calibrationSamples := List.replicate 5 (mkSample 7)
        upThreshold := 100 }).upThreshold = -5 ∧
    (finishCalibration
      { initialTracker with
        calibrationSamples := List.replicate 5 (mkSample 7)
        upThreshold := 100 }).downThreshold = 5 ∧
    (finishCalibration
      { initialTracker with
        calibrationSamples := List.replicate 5 (mkSample 7)
        upThreshold := 100 }).isCalibrated = true :=
  finishCalibration_fallback
    { initialTracker with
      calibrationSamples := List.replicate 5 (mkSample 7)
      upThreshold := 100 }
    (by simp)

/-! ### C7: the input accessor is null-or-exclusive -/

/-- C7: `getCurrentInput` returns `none` whenever the tracker is not
initialized, not calibrated, or currently neutral; and whenever it returns an
input object, the `up` and `down` flags are never both true. -/
theorem getCurrentInput_exclusive (t : Tracker) :
    ((t.isInitialized = false ∨ t.isCalibrated = false ∨
        t.currentHeadPose = Cmd.neutral) → getCurrentInput t = none) ∧
    (∀ i : GameInput, getCurrentInput t = some i → ¬(i.up = true ∧ i.down = true)) := by
  constructor
  · intro h
    unfold getCurrentInput
    rcases h with h | h | h
    · simp [h]
    · simp [h]
    · by_cases h2 : t.isInitialized = false ∨ t.isCalibrated = false
      · simp [h2]
      · simp [h2, h]
  · intro i hi
    unfold getCurrentInput at hi
    by_cases h2 : t.isInitialized = false ∨ t.isCalibrated = false
    · simp [h2] at hi
    · by_cases h3 : t.currentHeadPose = Cmd.neutral
      · simp [h2, h3] at hi
      · simp [h2, h3] at hi
        intro hud
        rw [← hi] at hud
        simp at hud
        obtain ⟨hu, hd⟩ := hud
        rw [hu] at hd
        exact absurd hd (by decide)

/-- Witness for C7: an uninitialized tracker reads `none`, and the input
object of a calibrated tracker currently in the `up` pose has
`up = true, down = false`. -/
theorem getCurrentInput_exclusive_witness :
    getCurrentInput initialTracker = none ∧
    ¬((true : Bool) = true ∧ (false : Bool) = true) := by
  refine ⟨(getCurrentInput_exclusive initialTracker).1 (Or.inl rfl), ?_⟩
  exact (getCurrentInput_exclusive { calTracker with currentHeadPose := Cmd.up }).2
    { up := true, down := false, left := false, right := false } (by decide)

/-! ### C8: a no-face frame changes nothing -/

/-- C8: processing a frame whose landmark result is empty (no detected face)
leaves the whole tracker state unchanged — in particular the pose history,
the current emitted command, and the calibration sample count. -/
theorem processResults_noFace (t : Tracker) (r : FaceResults)
    (hr : r.multiFaceLandmarks = []) :
    (processResults t r).poseHistory = t.poseHistory ∧
    (processResults t r).currentHeadPose = t.currentHeadPose ∧
    (processResults t r).calibrationSamples.length = t.calibrationSamples.length ∧
    processResults t r = t := by
  have h : processResults t r = t := by
    unfold processResults
    rw [hr]
  exact ⟨by rw [h], by rw [h], by rw [h], h⟩

/-- Witness for C8: an empty result on a mid-calibration tracker is a no-op. -/
theorem processResults_noFace_witness :
    processResults
      { initialTracker with calibrationSamples := List.replicate 5 (mkSample 7) }
      { multiFaceLandmarks := [] } =
    { initialTracker with calibrationSamples := List.replicate 5 (mkSample 7) } :=
  (processResults_noFace
    { initialTracker with calibrationSamples := List.replicate 5 (mkSample 7) }
    { multiFaceLandmarks := [] } rfl).2.2.2

/-! ### C9: recalibrate clears state and silences the accessor -/

/-- C9: `recalibrate` clears the calibrated flag, the sample window, the pose
history and the current command; any tracker state that is not calibrated (or
not initialized, i.e. outside the Active state) reads `none` from
`getCurrentInput`; hence every read after `recalibrate`, through any further
frames, stays `none` for as long as the state remains uncalibrated (i.e.
until a new calibration completes). -/
theorem recalibrate_clears (t : Tracker) :
    (recalibrate t).isCalibrated = false ∧
    (recalibrate t).calibrationSamples = [] ∧
    (recalibrate t).poseHistory = [] ∧
    (recalibrate t).currentHeadPose = Cmd.neutral ∧
    (∀ s : Tracker, s.isCalibrated = false → getCurrentInput s = none) ∧
    (∀ s : Tracker, s.isInitialized = false → getCurrentInput s = none) ∧
    (∀ rs : List FaceResults,
      (rs.foldl processResults (recalibrate t)).isCalibrated = false →
      getCurrentInput (rs.foldl processResults (recalibrate t)) = none) := by
  refine ⟨rfl, rfl, rfl, rfl, ?_, ?_, ?_⟩
  · intro s hs
    unfold getCurrentInput
    simp [hs]
  · intro s hs
    unfold getCurrentInput
    simp [hs]
  · intro rs hrs
    unfold getCurrentInput
    simp [hrs]

/-- Witness for C9: after recalibrating an active tracker in the `up` pose,
the accessor reads `none` immediately and again after a further no-face
frame. -/
theorem recalibrate_clears_witness :
    getCurrentInput (recalibrate { calTracker with currentHeadPose := Cmd.up }) = none ∧
    getCurrentInput
      ([{ multiFaceLandmarks := [] }].foldl processResults
        (recalibrate { calTracker with currentHeadPose := Cmd.up })) = none := by
  have h := recalibrate_clears { calTracker with currentHeadPose := Cmd.up }
  exact ⟨h.2.2.2.2.1 _ h.1, h.2.2.2.2.2.2 [{ multiFaceLandmarks := [] }] (by decide)⟩

/-! ### Helper congruence lemmas

`getSmoothedPose` reads only the pose history and the confidence threshold;
`updateHeadPose` additionally reads the window capacity.  These lemmas
replace an abstract tracker by a closed record so finite case analysis can
finish by `decide`. -/

theorem getSmoothedPose_depends (t : Tracker) :
    getSmoothedPose t =
      getSmoothedPose
        { initialTracker with
          poseHistory := t.poseHistory
          minConfidenceFrames := t.minConfidenceFrames } := rfl

theorem updateHeadPose_poseHistory_depends (t : Tracker) (c : Cmd) :
    (updateHeadPose t c).poseHistory =
      (updateHeadPose
        { initialTracker with
          poseHistory := t.poseHistory
          maxHistoryLength := t.maxHistoryLength
          minConfidenceFrames := t.minConfidenceFrames } c).poseHistory := rfl

theorem updateHeadPose_currentHeadPose_depends (t : Tracker) (c : Cmd) :
    (updateHeadPose t c).currentHeadPose =
      (updateHeadPose
        { initialTracker with
          poseHistory := t.poseHistory
          maxHistoryLength := t.maxHistoryLength
          minConfidenceFrames := t.minConfidenceFrames } c).currentHeadPose := rfl

/-! ### C4: a single outlier among two neutrals is suppressed -/

/-- C4: in a full three-entry window holding exactly one non-neutral raw
command and two `neutral` frames, the recency-weighted vote (weight 2 for the
most recent entry, 1 otherwise, non-neutral needing total weight ≥ 2) emits
`neutral`. -/
theorem getSmoothedPose_outlier (t : Tracker) (hmin : t.minConfidenceFrames = 2)
    (hlen : t.poseHistory.length = 3)
    (hneu : t.poseHistory.count Cmd.neutral = 2) :
    getSmoothedPose t = Cmd.neutral := by
  rw [getSmoothedPose_depends, hmin]
  rcases ht : t.poseHistory with _ | ⟨a, _ | ⟨b, _ | ⟨d, _ | ⟨e, rest⟩⟩⟩⟩ <;>
    rw [ht] at hlen hneu <;> try simp at hlen
  cases a <;> cases b <;> cases d <;> first
    | exact absurd hneu (by decide)
    | decide

/-- Witness for C4: the window `[neutral, up, neutral]` smooths to
`neutral`. -/
theorem getSmoothedPose_outlier_witness :
    getSmoothedPose
      { calTracker with poseHistory := [Cmd.neutral, Cmd.up, Cmd.neutral] } =
      Cmd.neutral :=
  getSmoothedPose_outlier
    { calTracker with poseHistory := [Cmd.neutral, Cmd.up, Cmd.neutral] }
    rfl rfl rfl

/-! ### C6: two most recent identical non-neutral commands win -/

/-- C6: in a capacity-3 window whose two most recent entries are the same
non-neutral command, that command's vote weight is at least 1 + 2 = 3, beats
every other label, and is emitted by the stabilizer. -/
theorem getSmoothedPose_sustained (t : Tracker) (c : Cmd)
    (hc : c ≠ Cmd.neutral) (hmin : t.minConfidenceFrames = 2)
    (hshape : t.poseHistory = [c, c] ∨ ∃ x, t.poseHistory = [x, c, c]) :
    getSmoothedPose t = c := by
  rw [getSmoothedPose_depends, hmin]
  rcases hshape with h | ⟨x, h⟩ <;> rw [h]
  · cases c <;> first
      | exact absurd rfl hc
      | decide
  · cases x <;> cases c <;> first
      | exact absurd rfl hc
      | decide

/-- Witness for C6: the window `[neutral, down, down]` smooths to `down`. -/
theorem getSmoothedPose_sustained_witness :
    getSmoothedPose
      { calTracker with poseHistory := [Cmd.neutral, Cmd.down, Cmd.down] } =
      Cmd.down :=
  getSmoothedPose_sustained
    { calTracker with poseHistory := [Cmd.neutral, Cmd.down, Cmd.down] }
    Cmd.down (by decide) rfl (Or.inr ⟨Cmd.neutral, rfl⟩)

/-! ### C3: a single pushed non-neutral frame at weight 2

The claim is false as stated: a freshly pushed non-neutral command absent
from the prior window does get total weight exactly 2, which meets the
minimum-confidence threshold of 2, but that is not sufficient to flip the
emitted command — when another label (in particular `neutral`) also has
weight ≥ 2, the stable sort keeps the earlier-seen label on top and the
output does not flip.  The counterexample pushes `up` onto the window
`[neutral, neutral]`. -/

/-- C3 counterexample: pushing `up` onto `[neutral, neutral]` (capacity 3,
threshold 2) gives `up` total weight exactly 2, yet the emitted smoothed
command stays `neutral`, so weight 2 for the most recent entry is not
sufficient to flip the output. -/
theorem updateHeadPose_single_push_not_sufficient :
    voteWeight
      (updateHeadPose
        { calTracker with poseHistory := [Cmd.neutral, Cmd.neutral] }
        Cmd.up).poseHistory Cmd.up = 2 ∧
    calTracker.minConfidenceFrames = 2 ∧
    (updateHeadPose
      { calTracker with poseHistory := [Cmd.neutral, Cmd.neutral] }
      Cmd.up).currentHeadPose = Cmd.neutral := by
  decide

/-- C3 amended: pushing a non-neutral raw command that is absent from a
duplicate-free prior window (every other label thus carrying weight at most
1) gives the pushed command total weight exactly 2, which meets the
minimum-confidence threshold of 2 and flips the emitted command to it.  In
general weight 2 only ties a label such as `neutral` that already holds
weight 2, and the tie is resolved for the earlier-seen label, so the output
does not flip. -/
theorem updateHeadPose_single_push_flips (t : Tracker) (c : Cmd)
    (hc : c ≠ Cmd.neutral) (hmin : t.minConfidenceFrames = 2)
    (hmax : t.maxHistoryLength = 3) (hnodup : t.poseHistory.Nodup)
    (hnotin : c ∉ t.poseHistory) :
    voteWeight (updateHeadPose t c).poseHistory c = 2 ∧
    (updateHeadPose t c).currentHeadPose = c := by
  rw [updateHeadPose_poseHistory_depends, updateHeadPose_currentHeadPose_depends,
    hmin, hmax]
  rcases ht : t.poseHistory with _ | ⟨a, _ | ⟨b, _ | ⟨d, rest⟩⟩⟩ <;>
    rw [ht] at hnodup hnotin
  · cases c <;> first
      | exact absurd rfl hc
      | decide
  · cases a <;> cases c <;> first
      | decide
      | (exfalso; simp_all)
  · cases a <;> cases b <;> cases c <;> first
      | decide
      | (exfalso; simp_all)
  · cases a <;> cases b <;> cases d <;> cases c <;> exfalso <;> simp_all

/-- Witness for the amended C3: pushing `up` onto the singleton window
`[neutral]` yields weight 2 and flips the emitted command to `up`. -/
theorem updateHeadPose_single_push_flips_witness :
    voteWeight
      (updateHeadPose { calTracker with poseHistory := [Cmd.neutral] }
        Cmd.up).poseHistory Cmd.up = 2 ∧
    (updateHeadPose { calTracker with poseHistory := [Cmd.neutral] }
      Cmd.up).currentHeadPose = Cmd.up :=
  updateHeadPose_single_push_flips
    { calTracker with poseHistory := [Cmd.neutral] } Cmd.up
    (by decide) rfl rfl (by decide) (by decide)

/-! ### C10: from the frame path, calibration completes only at 60 samples -/

/-- Reduction of `processResults` on a frame with a detected face. -/
theorem processResults_eq_of_cons (t : Tracker) (r : FaceResults)
    (h0 : PoseSample) (rest : List PoseSample)
    (hr : r.multiFaceLandmarks = h0 :: rest) :
    processResults t r =
      if t.isCalibrated = false then
        if t.calibrationSamples.length < t.calibrationFrames then
          updateCalibrationUI
            { t with calibrationSamples := t.calibrationSamples ++ [h0] }
            (t.calibrationSamples ++ [h0]).length
        else t
      else updateHeadPose t (determineHeadPose t h0) := by
  unfold processResults
  rw [hr]

/-- A tracker mid-calibration with 59 zero-pitch samples, and a frame with
one detected face, used by the C10 witness. -/
def midCalTracker : Tracker :=
  { initialTracker with calibrationSamples := List.replicate 59 (mkSample 0) }

/-- A frame whose result holds exactly one detected face. -/
def oneFaceFrame : FaceResults := { multiFaceLandmarks := [mkSample 0] }

/-- C10: along the frame-processing path (`processResults` with
`calibrationFrames = 60`), an uncalibrated tracker becomes calibrated only
when the sample window reaches exactly 60 samples, and the resulting
calibration is always the personalized mean-based one (60 > 10), never the
insufficient-data default fallback; if no such frame arrives the state stays
uncalibrated. -/
theorem processResults_completes_only_full (s : Tracker) (r : FaceResults)
    (hcal : s.isCalibrated = false) (hframes : s.calibrationFrames = 60)
    (hdone : (processResults s r).isCalibrated = true) :
    (processResults s r).calibrationSamples.length = 60 ∧
    10 < (processResults s r).calibrationSamples.length ∧
    (processResults s r).neutralPosition =
      some (avgPitch (processResults s r).calibrationSamples) ∧
    (processResults s r).upThreshold =
      avgPitch (processResults s r).calibrationSamples - 5 ∧
    (processResults s r).downThreshold =
      avgPitch (processResults s r).calibrationSamples + 5 := by
  rcases hr : r.multiFaceLandmarks with _ | ⟨h0, rest⟩
  · have he : processResults s r = s := by
      unfold processResults
      rw [hr]
    rw [he, hcal] at hdone
    exact absurd hdone (by decide)
  · rw [processResults_eq_of_cons s r h0 rest hr] at hdone ⊢
    rw [hcal] at hdone ⊢
    rw [if_pos rfl] at hdone ⊢
    by_cases hlt : s.calibrationSamples.length < s.calibrationFrames
    · rw [if_pos hlt] at hdone ⊢
      unfold updateCalibrationUI at hdone ⊢
      dsimp only at hdone ⊢
      by_cases h2 : s.calibrationFrames ≤ (s.calibrationSamples ++ [h0]).length
      · rw [if_pos h2] at hdone ⊢
        have hn : (s.calibrationSamples ++ [h0]).length = 60 := by
          simp at h2 ⊢
          omega
        have h10 : 10 <
            ({ s with calibrationSamples := s.calibrationSamples ++ [h0] } :
              Tracker).calibrationSamples.length := by
          dsimp only
          omega
        unfold finishCalibration
        rw [if_pos h10]
        dsimp only
        refine ⟨hn, by omega, rfl, rfl, rfl⟩
      · rw [if_neg h2] at hdone
        dsimp only at hdone
        exact absurd hdone (by decide)
    · rw [if_neg hlt] at hdone
      rw [hcal] at hdone
      exact absurd hdone (by decide)

/-- Witness for C10: a 59-sample tracker processing one more detected face
completes the personalized calibration at exactly 60 samples. -/
theorem processResults_completes_only_full_witness :
    (processResults midCalTracker oneFaceFrame).calibrationSamples.length = 60 ∧
    10 < (processResults midCalTracker oneFaceFrame).calibrationSamples.length ∧
    (processResults midCalTracker oneFaceFrame).neutralPosition =
      some (avgPitch (processResults midCalTracker oneFaceFrame).calibrationSamples) ∧
    (processResults midCalTracker oneFaceFrame).upThreshold =
      avgPitch (processResults midCalTracker oneFaceFrame).calibrationSamples - 5 ∧
    (processResults midCalTracker oneFaceFrame).downThreshold =
      avgPitch (processResults midCalTracker oneFaceFrame).calibrationSamples + 5 :=
  processResults_completes_only_full midCalTracker oneFaceFrame rfl rfl (by decide)
